import Mathlib

/-!
Verification of the flight-profile estimator and live-tracking logic of the
Flight-Tracker application (src/flight_tracker_app.py).

Numbers that the Python source manipulates as floats are embedded as exact
rationals (`ℚ`); the geographic distance, which goes through real-valued
trigonometry, is embedded over `ℝ`.  A Python runtime `ZeroDivisionError` or
`ValueError` is embedded as `Except.error`.
-/

namespace FlightTracker

/-- One entry of the `aeronaves` performance table (src lines 108-136). -/
structure AircraftParams where
  altitude_cruzeiro_ft : ℚ
  vel_subida_kmh : ℚ
  vel_cruzeiro_kmh : ℚ
  vel_descida_kmh : ℚ
  razao_subida_fpm : ℚ
  razao_descida_fpm : ℚ
  subida_descida : ℚ
deriving DecidableEq

/-- The `aeronaves` dictionary (src lines 108-136), as a lookup from the
aircraft-type string to its parameters. -/
def aeronaves (tipo : String) : Option AircraftParams :=
  if tipo = "VC-1 (Airbus A319)" then
    some ⟨35000, 500, 840, 600, 2000, 1800, 314⟩
  else if tipo = "VC-2 (Embraer 190)" then
    some ⟨37000, 480, 820, 580, 2200, 1800, 268⟩
  else if tipo = "KC-30 (Airbus A330)" then
    some ⟨41000, 550, 880, 650, 2000, 2000, 362⟩
  else none

/-- One phase of the returned flight profile: `{"dist_km": ..., "tempo_h": ...}`. -/
structure FasePerfil where
  dist_km : ℚ
  tempo_h : ℚ
deriving DecidableEq

/-- The dictionary returned by `calcular_perfil_de_voo` (src lines 97-103). -/
structure PerfilVoo where
  subida : FasePerfil
  cruzeiro : FasePerfil
  descida : FasePerfil
  tempo_total_h : ℚ
  altitude_cruzeiro_ft : ℚ
deriving DecidableEq

/-- The computation body of `calcular_perfil_de_voo` (src lines 82-103), after
the aircraft parameters have been resolved.  Python raises `ZeroDivisionError`
when a divisor is zero; this is embedded as `Except.error`.  Note that the
cruise-speed division is guarded by `d_cruzeiro_km > 0` in the source, so a
zero cruise speed only raises when the cruise distance is positive. -/
def perfilCore (distancia_total_km altitude_cruzeiro_ft vel_subida_kmh
    vel_cruzeiro_kmh vel_descida_kmh razao_subida_fpm razao_descida_fpm : ℚ) :
    Except String PerfilVoo :=
  if razao_subida_fpm = 0 then Except.error "ZeroDivisionError"
  else if razao_descida_fpm = 0 then Except.error "ZeroDivisionError"
  else
    let tempo_subida_min := altitude_cruzeiro_ft / razao_subida_fpm
    let tempo_descida_min := altitude_cruzeiro_ft / razao_descida_fpm
    let tempo_subida_h := tempo_subida_min / 60
    let tempo_descida_h := tempo_descida_min / 60
    let d_subida_km := vel_subida_kmh * tempo_subida_h
    let d_descida_km := vel_descida_kmh * tempo_descida_h
    let d_cruzeiro_km := max 0 (distancia_total_km - d_subida_km - d_descida_km)
    if d_cruzeiro_km > 0 ∧ vel_cruzeiro_kmh = 0 then Except.error "ZeroDivisionError"
    else
      let t_cruzeiro_h := if d_cruzeiro_km > 0 then d_cruzeiro_km / vel_cruzeiro_kmh else 0
      let tempo_total_h := tempo_subida_h + t_cruzeiro_h + tempo_descida_h
      Except.ok
        { subida := ⟨d_subida_km, tempo_subida_h⟩
          cruzeiro := ⟨d_cruzeiro_km, t_cruzeiro_h⟩
          descida := ⟨d_descida_km, tempo_descida_h⟩
          tempo_total_h := tempo_total_h
          altitude_cruzeiro_ft := altitude_cruzeiro_ft }

/-- `calcular_perfil_de_voo` (src lines 50-103).  Parameters that default to
`None` in Python are `Option`-typed; `tipo_aeronave` is first looked up in
`aeronaves`; the `Custom` branch demands `vel_custom`, `altitude_cruzeiro_ft`,
`razao_subida_fpm` and `razao_descida_fpm` and uses `vel_custom` for all three
phase speeds; any other type raises `ValueError` (embedded as `Except.error`). -/
def calcular_perfil_de_voo (distancia_total_km : ℚ) (tipo_aeronave : Option String)
    (vel_custom altitude_cruzeiro_ft vel_subida_kmh vel_cruzeiro_kmh vel_descida_kmh
      razao_subida_fpm razao_descida_fpm : Option ℚ) : Except String PerfilVoo :=
  match tipo_aeronave.bind aeronaves with
  | some param =>
      perfilCore distancia_total_km param.altitude_cruzeiro_ft param.vel_subida_kmh
        param.vel_cruzeiro_kmh param.vel_descida_kmh param.razao_subida_fpm
        param.razao_descida_fpm
  | none =>
      if tipo_aeronave = some "Custom" then
        match vel_custom, altitude_cruzeiro_ft, razao_subida_fpm, razao_descida_fpm with
        | some v, some alt, some rs, some rd =>
            perfilCore distancia_total_km alt v v v rs rd
        | _, _, _, _ =>
            Except.error "Para aeronave custom, todos os parâmetros devem ser fornecidos"
      else Except.error "Tipo de aeronave não especificado corretamente"

/-- Python truthiness of an optional number: `None` and `0` are falsy.  This is
the test applied by `if state.latitude and state.longitude and state.velocity`
(src line 322), by `if ac.get("gs")` (src line 154) and by the fallback check
(src line 335). -/
def truthy : Option ℚ → Bool
  | none => false
  | some v => decide (v ≠ 0)

/-- Outcome of the primary-provider query `api.get_states(icao24=...)`
(src lines 318-321): an exception, a falsy/empty state list, or a first state
with optional latitude, longitude and velocity fields. -/
inductive PrimaryResult where
  | exn : PrimaryResult
  | noStates : PrimaryResult
  | state (latitude longitude velocity : Option ℚ) : PrimaryResult

/-- One element of the `ac` list in the ADSB.lol JSON body; `ac.get` returns
`None` for a missing key (src lines 150-154). -/
structure AcEntry where
  lat : Option ℚ
  lon : Option ℚ
  gs : Option ℚ

/-- Outcome of the secondary-provider HTTP call (src lines 144-147): a non-2xx
status, request exception or JSON failure (`httpError`, swallowed by the bare
`except`), or a parsed body with its `total` count, whether the `"ac"` key is
present, and the `ac` list. -/
inductive AdsbResponse where
  | httpError : AdsbResponse
  | body (total : ℤ) (hasAcKey : Bool) (ac : List AcEntry) : AdsbResponse

/-- The dictionary returned by `consultar_adsb_lol` on success (src lines
151-156). -/
structure LivePosition where
  latitude : Option ℚ
  longitude : Option ℚ
  velocity : Option ℚ
deriving DecidableEq

/-- `consultar_adsb_lol` (src lines 141-160).  Any HTTP/parse failure returns
`None`; with `total > 0` and an `"ac"` key it reads `ac[0]` (an empty list
raises `IndexError`, caught by the bare `except`, hence `none`); `gs` (knots)
is converted to km/h by `* 1.852` only when truthy, else `velocity` is `None`. -/
def consultar_adsb_lol : AdsbResponse → Option LivePosition
  | .httpError => none
  | .body total hasAcKey ac =>
      if total > 0 ∧ hasAcKey then
        match ac with
        | [] => none
        | e :: _ =>
            some { latitude := e.lat
                   longitude := e.lon
                   velocity :=
                     if truthy e.gs then some (e.gs.getD 0 * (1852 / 1000)) else none }
      else none

/-- The validity test applied to the primary provider's answer (src lines
318-331): a usable state needs truthy latitude, longitude and velocity; the
velocity (m/s) is converted to km/h by `* 3.6` (src line 325).  Returns the
`(posicao.1, posicao.2, velocidade_kmh)` triple when `dados_validos` is set. -/
def primary_valid : PrimaryResult → Option (ℚ × ℚ × ℚ)
  | .exn => none
  | .noStates => none
  | .state lat lon vel =>
      if truthy lat ∧ truthy lon ∧ truthy vel then
        some (lat.getD 0, lon.getD 0, vel.getD 0 * (36 / 10))
      else none

/-- One pass of the live-position fetch (src lines 313-341): try the primary
provider; if it yields no valid data, call `consultar_adsb_lol` once and accept
its answer only when latitude, longitude and velocity are all truthy.  The
second component counts how many times the fallback was consulted in the pass;
`none` in the first component is the "Dados não encontrados" outcome. -/
def live_fetch (p : PrimaryResult) (s : AdsbResponse) : Option (ℚ × ℚ × ℚ) × Nat :=
  match primary_valid p with
  | some r => (some r, 0)
  | none =>
      match consultar_adsb_lol s with
      | some fb =>
          if truthy fb.latitude ∧ truthy fb.longitude ∧ truthy fb.velocity then
            (some (fb.latitude.getD 0, fb.longitude.getD 0, fb.velocity.getD 0), 1)
          else (none, 1)
      | none => (none, 1)

/-- Phase-speed selection for the live re-estimation (src lines 353-361): table
aircraft use their own climb/cruise/descent speeds, otherwise (the `Custom`
selection) all three equal `vel_custom`. -/
def velocidades_live (tipo : String) (vel_custom : ℚ) : ℚ × ℚ × ℚ :=
  match aeronaves tipo with
  | some param => (param.vel_subida_kmh, param.vel_cruzeiro_kmh, param.vel_descida_kmh)
  | none => (vel_custom, vel_custom, vel_custom)

/-- Flight-phase classification of the live re-estimator (src lines 363-369). -/
def fase (distancia_restante altitude_atual_ft altitude_cruzeiro : ℚ) : String :=
  if distancia_restante < 150 then "descida"
  else if altitude_atual_ft < 85 / 100 * altitude_cruzeiro then "subida"
  else "cruzeiro"

/-- The adaptive remaining-time computation (src lines 371-383): descent and
cruise divide the remaining distance by the phase speed (a zero speed would
raise `ZeroDivisionError`); the climb branch re-invokes `calcular_perfil_de_voo`
on the remaining distance, forwarding only `tipo_aeronave`, `vel_custom` (when
`Custom`) and `altitude_cruzeiro_ft` — the climb/descent rates are left `None`. -/
def tempo_h (tipo : String) (vel_custom : ℚ) (altitude_cruzeiro : ℚ)
    (distancia_restante altitude_atual_ft : ℚ) : Except String ℚ :=
  let v := velocidades_live tipo vel_custom
  let f := fase distancia_restante altitude_atual_ft altitude_cruzeiro
  if f = "descida" then
    if v.2.2 = 0 then Except.error "ZeroDivisionError"
    else Except.ok (distancia_restante / v.2.2)
  else if f = "cruzeiro" then
    if v.2.1 = 0 then Except.error "ZeroDivisionError"
    else Except.ok (distancia_restante / v.2.1)
  else
    (calcular_perfil_de_voo distancia_restante (some tipo)
        (if tipo = "Custom" then some vel_custom else none)
        (some altitude_cruzeiro) none none none none none).map
      (fun perfil_real => perfil_real.tempo_total_h)

/-- Degrees to radians, `radians(x)` (src lines 44-45). -/
noncomputable def radians (x : ℝ) : ℝ := x * Real.pi / 180

/-- `atan2(y, x)` as used on src line 47, with the usual quadrant convention. -/
noncomputable def atan2 (y x : ℝ) : ℝ :=
  if 0 < x then Real.arctan (y / x)
  else if x < 0 ∧ 0 ≤ y then Real.arctan (y / x) + Real.pi
  else if x < 0 ∧ y < 0 then Real.arctan (y / x) - Real.pi
  else if x = 0 ∧ 0 < y then Real.pi / 2
  else if x = 0 ∧ y < 0 then -(Real.pi / 2)
  else 0

/-- Modelled from the spec: `calcular_distancia` (src lines 40-48) returns
`geopy.distance.geodesic((lat1, lon1), (lat2, lon2)).kilometers`, a third-party
ellipsoidal distance whose code is not part of this repository.  It is modelled
here by the great-circle haversine formula that the body of
`calcular_distancia` itself carries as its reference implementation
(src lines 43-48, the code after the `return`). -/
noncomputable def calcular_distancia (lat1 lon1 lat2 lon2 : ℝ) : ℝ :=
  let R : ℝ := 6371
  let dlat := radians (lat2 - lat1)
  let dlon := radians (lon2 - lon1)
  let a := Real.sin (dlat / 2) ^ 2 +
    Real.cos (radians lat1) * Real.cos (radians lat2) * Real.sin (dlon / 2) ^ 2
  let c := 2 * atan2 (Real.sqrt a) (Real.sqrt (1 - a))
  R * c

/-! ## Helper lemmas -/

/-- Closed form of `perfilCore` when none of the divisors used by the source is
zero, matching src lines 82-103 line by line. -/
theorem perfilCore_eq_ok (D alt vs vc vd rs rd : ℚ) (hrs : rs ≠ 0) (hrd : rd ≠ 0)
    (hvc : vc ≠ 0) :
    perfilCore D alt vs vc vd rs rd = Except.ok
      { subida := ⟨vs * (alt / rs / 60), alt / rs / 60⟩
        cruzeiro := ⟨max 0 (D - vs * (alt / rs / 60) - vd * (alt / rd / 60)),
          if max 0 (D - vs * (alt / rs / 60) - vd * (alt / rd / 60)) > 0 then
            max 0 (D - vs * (alt / rs / 60) - vd * (alt / rd / 60)) / vc
          else 0⟩
        descida := ⟨vd * (alt / rd / 60), alt / rd / 60⟩
        tempo_total_h := alt / rs / 60 +
          (if max 0 (D - vs * (alt / rs / 60) - vd * (alt / rd / 60)) > 0 then
            max 0 (D - vs * (alt / rs / 60) - vd * (alt / rd / 60)) / vc
          else 0) + alt / rd / 60
        altitude_cruzeiro_ft := alt } := by
  simp only [perfilCore]
  rw [if_neg hrs, if_neg hrd, if_neg (fun hh => hvc hh.2)]

/-- When the primary provider yields no valid data, the pass consults the
fallback exactly once, whatever the fallback answers. -/
theorem live_fetch_snd_eq_one (p : PrimaryResult) (s : AdsbResponse)
    (hp : primary_valid p = none) : (live_fetch p s).2 = 1 := by
  simp only [live_fetch, hp]
  cases hs : consultar_adsb_lol s with
  | none => rfl
  | some fb => dsimp only; split <;> rfl

/-- When the primary provider yields no valid data and the fallback returns
`None`, the pass reports no data after the single fallback consultation. -/
theorem live_fetch_none_of_both_fail (p : PrimaryResult) (s : AdsbResponse)
    (hp : primary_valid p = none) (hs : consultar_adsb_lol s = none) :
    live_fetch p s = (none, 1) := by
  simp only [live_fetch, hp, hs]

/-! ## Claim theorems -/

/-- C1: for every total great-circle distance `D ≥ 0` and every aircraft
profile whose speeds and rates are positive, the flight-profile computation of
`calcular_perfil_de_voo` (its body `perfilCore`, reached by both the table and
the `Custom` path) succeeds and returns climb time `alt / rs / 60` hours,
descent time `alt / rd / 60` hours, climb distance `vs *` climb time, descent
distance `vd *` descent time, cruise distance `max 0` of the remainder, cruise
time `cruise distance / vc` when the cruise distance is positive and `0`
otherwise, and a `tempo_total_h` that equals exactly the sum of the three
phase times. -/
theorem perfil_formulas (D alt vs vc vd rs rd : ℚ) (hD : 0 ≤ D) (hvs : 0 < vs)
    (hvc : 0 < vc) (hvd : 0 < vd) (hrs : 0 < rs) (hrd : 0 < rd) :
    ∃ r, perfilCore D alt vs vc vd rs rd = Except.ok r ∧
      r.subida.tempo_h = alt / rs / 60 ∧
      r.descida.tempo_h = alt / rd / 60 ∧
      r.subida.dist_km = vs * (alt / rs / 60) ∧
      r.descida.dist_km = vd * (alt / rd / 60) ∧
      r.cruzeiro.dist_km = max 0 (D - r.subida.dist_km - r.descida.dist_km) ∧
      r.cruzeiro.tempo_h =
        (if r.cruzeiro.dist_km > 0 then r.cruzeiro.dist_km / vc else 0) ∧
      r.tempo_total_h = r.subida.tempo_h + r.cruzeiro.tempo_h + r.descida.tempo_h :=
  ⟨_, perfilCore_eq_ok D alt vs vc vd rs rd hrs.ne' hrd.ne' hvc.ne',
    rfl, rfl, rfl, rfl, rfl, rfl, rfl⟩

/-- Witness for C1 at the spec's worked example: distance 357 km with the VC-1
parameters (35000 ft, 500/840/600 km/h, 2000/1800 fpm). -/
theorem perfil_formulas_witness :
    (0 : ℚ) ≤ 357 ∧ (0 : ℚ) < 500 ∧ (0 : ℚ) < 840 ∧ (0 : ℚ) < 600 ∧
    (0 : ℚ) < 2000 ∧ (0 : ℚ) < 1800 ∧
    (∃ r, perfilCore 357 35000 500 840 600 2000 1800 = Except.ok r ∧
      r.subida.tempo_h = 35000 / 2000 / 60 ∧
      r.descida.tempo_h = 35000 / 1800 / 60 ∧
      r.subida.dist_km = 500 * (35000 / 2000 / 60) ∧
      r.descida.dist_km = 600 * (35000 / 1800 / 60) ∧
      r.cruzeiro.dist_km = max 0 (357 - r.subida.dist_km - r.descida.dist_km) ∧
      r.cruzeiro.tempo_h =
        (if r.cruzeiro.dist_km > 0 then r.cruzeiro.dist_km / 840 else 0) ∧
      r.tempo_total_h = r.subida.tempo_h + r.cruzeiro.tempo_h + r.descida.tempo_h) :=
  ⟨by norm_num, by norm_num, by norm_num, by norm_num, by norm_num, by norm_num,
    perfil_formulas 357 35000 500 840 600 2000 1800 (by norm_num) (by norm_num)
      (by norm_num) (by norm_num) (by norm_num) (by norm_num)⟩

/-- C2: for every distance `D ≥ 0` and profile with positive rates and speeds,
when `D` is at least the climb distance plus the descent distance the three
phase distances sum exactly to `D`; otherwise the cruise distance and the
cruise time are both exactly `0` (the clamped model). -/
theorem perfil_distance_conservation (D alt vs vc vd rs rd : ℚ) (hD : 0 ≤ D)
    (hvs : 0 < vs) (hvc : 0 < vc) (hvd : 0 < vd) (hrs : 0 < rs) (hrd : 0 < rd) :
    ∃ r, perfilCore D alt vs vc vd rs rd = Except.ok r ∧
      (r.subida.dist_km + r.descida.dist_km ≤ D →
        r.subida.dist_km + r.cruzeiro.dist_km + r.descida.dist_km = D) ∧
      (D < r.subida.dist_km + r.descida.dist_km →
        r.cruzeiro.dist_km = 0 ∧ r.cruzeiro.tempo_h = 0) := by
  refine ⟨_, perfilCore_eq_ok D alt vs vc vd rs rd hrs.ne' hrd.ne' hvc.ne', ?_, ?_⟩
  · intro h
    have h' : vs * (alt / rs / 60) + vd * (alt / rd / 60) ≤ D := h
    show vs * (alt / rs / 60) +
        max 0 (D - vs * (alt / rs / 60) - vd * (alt / rd / 60)) +
        vd * (alt / rd / 60) = D
    rw [max_eq_right (by linarith)]
    ring
  · intro h
    have h' : D < vs * (alt / rs / 60) + vd * (alt / rd / 60) := h
    have hz : max 0 (D - vs * (alt / rs / 60) - vd * (alt / rd / 60)) = 0 :=
      max_eq_left (by linarith)
    constructor
    · exact hz
    · show (if max 0 (D - vs * (alt / rs / 60) - vd * (alt / rd / 60)) > 0 then
          max 0 (D - vs * (alt / rs / 60) - vd * (alt / rd / 60)) / vc
        else 0) = 0
      rw [hz]
      norm_num

/-- Witness for C2 at a short hop: distance 100 km with the VC-1 parameters,
whose climb plus descent distance (about 340 km) exceeds the total. -/
theorem perfil_distance_conservation_witness :
    (0 : ℚ) ≤ 100 ∧ (0 : ℚ) < 500 ∧ (0 : ℚ) < 840 ∧ (0 : ℚ) < 600 ∧
    (0 : ℚ) < 2000 ∧ (0 : ℚ) < 1800 ∧
    (∃ r, perfilCore 100 35000 500 840 600 2000 1800 = Except.ok r ∧
      (r.subida.dist_km + r.descida.dist_km ≤ 100 →
        r.subida.dist_km + r.cruzeiro.dist_km + r.descida.dist_km = 100) ∧
      (100 < r.subida.dist_km + r.descida.dist_km →
        r.cruzeiro.dist_km = 0 ∧ r.cruzeiro.tempo_h = 0)) :=
  ⟨by norm_num, by norm_num, by norm_num, by norm_num, by norm_num, by norm_num,
    perfil_distance_conservation 100 35000 500 840 600 2000 1800 (by norm_num)
      (by norm_num) (by norm_num) (by norm_num) (by norm_num) (by norm_num)⟩

/-- C9: whenever the cruise speed, the climb rate and the descent rate are
strictly positive, every division performed by the profile computation has a
nonzero divisor, so `calcular_perfil_de_voo` never fails with a
division-by-zero error: `perfilCore` returns `Except.ok`. -/
theorem perfil_no_div_by_zero (D alt vs vc vd rs rd : ℚ)
    (hrs : 0 < rs) (hrd : 0 < rd) (hvc : 0 < vc) :
    rs ≠ 0 ∧ rd ≠ 0 ∧ vc ≠ 0 ∧
    ∃ r, perfilCore D alt vs vc vd rs rd = Except.ok r :=
  ⟨hrs.ne', hrd.ne', hvc.ne',
    _, perfilCore_eq_ok D alt vs vc vd rs rd hrs.ne' hrd.ne' hvc.ne'⟩

/-- Witness for C9 at the KC-30 table parameters and distance 5000 km. -/
theorem perfil_no_div_by_zero_witness :
    (0 : ℚ) < 2000 ∧ (0 : ℚ) < 2000 ∧ (0 : ℚ) < 880 ∧
    ((2000 : ℚ) ≠ 0 ∧ (2000 : ℚ) ≠ 0 ∧ (880 : ℚ) ≠ 0 ∧
      ∃ r, perfilCore 5000 41000 550 880 650 2000 2000 = Except.ok r) :=
  ⟨by norm_num, by norm_num, by norm_num,
    perfil_no_div_by_zero 5000 41000 550 880 650 2000 2000 (by norm_num)
      (by norm_num) (by norm_num)⟩

/-- C3: invoking `calcular_perfil_de_voo` with `tipo_aeronave = "Custom"` while
any of `vel_custom`, `altitude_cruzeiro_ft`, `razao_subida_fpm` or
`razao_descida_fpm` is `None` raises `ValueError` and produces no result. -/
theorem custom_missing_field_error (D : ℚ)
    (vel_custom altitude_cruzeiro_ft vel_subida_kmh vel_cruzeiro_kmh vel_descida_kmh
      razao_subida_fpm razao_descida_fpm : Option ℚ)
    (h : vel_custom = none ∨ altitude_cruzeiro_ft = none ∨
      razao_subida_fpm = none ∨ razao_descida_fpm = none) :
    calcular_perfil_de_voo D (some "Custom") vel_custom altitude_cruzeiro_ft
      vel_subida_kmh vel_cruzeiro_kmh vel_descida_kmh razao_subida_fpm
      razao_descida_fpm =
      Except.error "Para aeronave custom, todos os parâmetros devem ser fornecidos" := by
  rcases vel_custom with _ | v <;> rcases altitude_cruzeiro_ft with _ | alt <;>
    rcases razao_subida_fpm with _ | rs <;> rcases razao_descida_fpm with _ | rd <;>
    simp_all [calcular_perfil_de_voo, aeronaves]

/-- Witness for C3: all four custom fields absent at distance 1000 km. -/
theorem custom_missing_field_error_witness :
    ((none : Option ℚ) = none ∨ (none : Option ℚ) = none ∨
      (none : Option ℚ) = none ∨ (none : Option ℚ) = none) ∧
    calcular_perfil_de_voo 1000 (some "Custom") none none none none none none none =
      Except.error "Para aeronave custom, todos os parâmetros devem ser fornecidos" :=
  ⟨Or.inl rfl,
    custom_missing_field_error 1000 none none none none none none none (Or.inl rfl)⟩

/-- C4: for every live update, the re-estimator classifies the phase as
`"descida"` (descent) exactly when the remaining distance is below 150 km;
otherwise as `"subida"` (climb) exactly when the current altitude is below 85%
of the cruise altitude; otherwise as `"cruzeiro"` (cruise).  In particular,
remaining distance 100 km gives descent, 1000 km at half the cruise altitude
gives climb, and 1000 km at the cruise altitude gives cruise. -/
theorem fase_classification (d a c : ℚ) (hc : 0 < c) :
    (fase d a c = "descida" ↔ d < 150) ∧
    (¬ d < 150 → (fase d a c = "subida" ↔ a < 85 / 100 * c)) ∧
    (¬ d < 150 → ¬ a < 85 / 100 * c → fase d a c = "cruzeiro") ∧
    fase 100 a c = "descida" ∧
    fase 1000 (50 / 100 * c) c = "subida" ∧
    fase 1000 c c = "cruzeiro" := by
  refine ⟨?_, ?_, ?_, ?_, ?_, ?_⟩
  · unfold fase
    split_ifs with h1 h2 <;> simp [h1]
  · intro h1
    unfold fase
    rw [if_neg h1]
    split_ifs with h2 <;> simp [h2]
  · intro h1 h2
    unfold fase
    rw [if_neg h1, if_neg h2]
  · unfold fase
    rw [if_pos (by norm_num)]
  · unfold fase
    rw [if_neg (by norm_num), if_pos (by linarith)]
  · unfold fase
    rw [if_neg (by norm_num), if_neg (by linarith)]

/-- Witness for C4 at remaining distance 1000 km, altitude 35000 ft and cruise
altitude 35000 ft. -/
theorem fase_classification_witness :
    (0 : ℚ) < 35000 ∧
    ((fase 1000 35000 35000 = "descida" ↔ (1000 : ℚ) < 150) ∧
      (¬ (1000 : ℚ) < 150 →
        (fase 1000 35000 35000 = "subida" ↔ (35000 : ℚ) < 85 / 100 * 35000)) ∧
      (¬ (1000 : ℚ) < 150 → ¬ (35000 : ℚ) < 85 / 100 * 35000 →
        fase 1000 35000 35000 = "cruzeiro") ∧
      fase 100 35000 35000 = "descida" ∧
      fase 1000 (50 / 100 * 35000) 35000 = "subida" ∧
      fase 1000 35000 35000 = "cruzeiro") :=
  ⟨by norm_num, fase_classification 1000 35000 35000 (by norm_num)⟩

/-- C5: the claim asserts that in the climb phase the remaining time is
obtained by re-invoking `calcular_perfil_de_voo` on the remaining distance
"with the call succeeding" for every aircraft selection, table or `Custom`.
The code contradicts this for `Custom`: the climb branch (src lines 377-382)
forwards `tipo_aeronave`, `vel_custom` and `altitude_cruzeiro_ft` but not
`razao_subida_fpm`/`razao_descida_fpm`, so `calcular_perfil_de_voo` raises
`ValueError`.  Evaluation at the failing input (Custom profile at 850 km/h,
cruise altitude 35000 ft, 1000 km remaining, current altitude 17500 ft, which
classifies as climb): the re-invocation fails, while the same climb branch
succeeds for a table aircraft. -/
theorem custom_climb_reestimation_fails :
    fase 1000 17500 35000 = "subida" ∧
    tempo_h "Custom" 850 35000 1000 17500 =
      Except.error "Para aeronave custom, todos os parâmetros devem ser fornecidos" ∧
    (∃ t, tempo_h "VC-1 (Airbus A319)" 850 35000 1000 17500 = Except.ok t) := by
  have hf : fase 1000 17500 35000 = "subida" := by norm_num [fase]
  refine ⟨hf, ?_, ?_⟩
  · simp only [tempo_h, velocidades_live, hf]
    simp [calcular_perfil_de_voo, aeronaves, Except.map]
  · simp only [tempo_h, velocidades_live, hf]
    simp only [calcular_perfil_de_voo, aeronaves]
    norm_num
    rw [perfilCore_eq_ok 1000 35000 500 840 600 2000 1800 (by norm_num) (by norm_num)
      (by norm_num)]
    exact ⟨_, rfl⟩

/-- C6: on any failure of the primary provider the fallback is consulted
exactly once; `consultar_adsb_lol` returns `None` on an HTTP failure, on
`total ≤ 0` and on a missing `"ac"` key; and when both providers fail the pass
reports no data after that single fallback consultation. -/
theorem fallback_contract (p : PrimaryResult) (s : AdsbResponse)
    (hp : primary_valid p = none) :
    (live_fetch p s).2 = 1 ∧
    primary_valid PrimaryResult.exn = none ∧
    primary_valid PrimaryResult.noStates = none ∧
    consultar_adsb_lol AdsbResponse.httpError = none ∧
    (∀ total hasAcKey ac, total ≤ 0 →
      consultar_adsb_lol (AdsbResponse.body total hasAcKey ac) = none) ∧
    (∀ total ac, consultar_adsb_lol (AdsbResponse.body total false ac) = none) ∧
    (consultar_adsb_lol s = none → live_fetch p s = (none, 1)) := by
  refine ⟨live_fetch_snd_eq_one p s hp, rfl, rfl, rfl, ?_, ?_, ?_⟩
  · intro total hasAcKey ac h
    simp only [consultar_adsb_lol]
    rw [if_neg]
    rintro ⟨h1, _⟩
    exact absurd h1 (not_lt.mpr h)
  · intro total ac
    simp [consultar_adsb_lol]
  · intro hs
    exact live_fetch_none_of_both_fail p s hp hs

/-- Witness for C6: primary raises an exception and the fallback HTTP request
fails. -/
theorem fallback_contract_witness :
    primary_valid PrimaryResult.exn = none ∧
    ((live_fetch PrimaryResult.exn AdsbResponse.httpError).2 = 1 ∧
      primary_valid PrimaryResult.exn = none ∧
      primary_valid PrimaryResult.noStates = none ∧
      consultar_adsb_lol AdsbResponse.httpError = none ∧
      (∀ total hasAcKey ac, total ≤ 0 →
        consultar_adsb_lol (AdsbResponse.body total hasAcKey ac) = none) ∧
      (∀ total ac, consultar_adsb_lol (AdsbResponse.body total false ac) = none) ∧
      (consultar_adsb_lol AdsbResponse.httpError = none →
        live_fetch PrimaryResult.exn AdsbResponse.httpError = (none, 1))) :=
  ⟨rfl, fallback_contract PrimaryResult.exn AdsbResponse.httpError rfl⟩

/-- C7: when the primary provider yields no usable data and the fallback body
carries a truthy position and a nonzero ground speed `g` in knots, the velocity
used for the live estimate is exactly `g * 1.852` km/h. -/
theorem fallback_velocity_conversion (p : PrimaryResult) (total : ℤ)
    (lat lon : Option ℚ) (g : ℚ) (rest : List AcEntry)
    (hp : primary_valid p = none) (htotal : 0 < total)
    (hlat : truthy lat = true) (hlon : truthy lon = true) (hg : g ≠ 0) :
    (live_fetch p (AdsbResponse.body total true (⟨lat, lon, some g⟩ :: rest))).1 =
      some (lat.getD 0, lon.getD 0, g * (1852 / 1000)) := by
  have hc : consultar_adsb_lol (AdsbResponse.body total true (⟨lat, lon, some g⟩ :: rest))
      = some ⟨lat, lon, some (g * (1852 / 1000))⟩ := by
    simp [consultar_adsb_lol, truthy, htotal, hg]
  simp only [live_fetch, hp, hc]
  rw [if_pos]
  · rfl
  · refine ⟨by simp [hlat], by simp [hlon], ?_⟩
    simp only [truthy, decide_eq_true_eq]
    exact mul_ne_zero hg (by norm_num)

/-- Witness for C7: primary exception; fallback body with `total = 1`,
`lat = 10`, `lon = 20` and `gs = 100` knots gives velocity `185.2` km/h. -/
theorem fallback_velocity_conversion_witness :
    primary_valid PrimaryResult.exn = none ∧ (0 : ℤ) < 1 ∧
    truthy (some 10) = true ∧ truthy (some 20) = true ∧ (100 : ℚ) ≠ 0 ∧
    (live_fetch PrimaryResult.exn
        (AdsbResponse.body 1 true [⟨some 10, some 20, some 100⟩])).1 =
      some ((some (10 : ℚ)).getD 0, (some (20 : ℚ)).getD 0, 100 * (1852 / 1000)) :=
  ⟨rfl, by norm_num, by norm_num [truthy], by norm_num [truthy], by norm_num,
    fallback_velocity_conversion PrimaryResult.exn 1 (some 10) (some 20) 100 []
      rfl (by norm_num) (by norm_num [truthy]) (by norm_num [truthy]) (by norm_num)⟩

/-- C8: falsy sensor values are treated as missing data.  A primary state whose
latitude, longitude or velocity is `None` or `0` is invalid and triggers the
fallback; a fallback report whose `gs` is `0` gets velocity `None` and is
therefore treated as unavailable even though `0` is a physically meaningful
ground speed. -/
theorem falsy_treated_as_missing (lat lon vel : Option ℚ)
    (h : lat = none ∨ lat = some 0 ∨ lon = none ∨ lon = some 0 ∨
      vel = none ∨ vel = some 0) :
    primary_valid (PrimaryResult.state lat lon vel) = none ∧
    (∀ s, (live_fetch (PrimaryResult.state lat lon vel) s).2 = 1) ∧
    (∀ (total : ℤ) (hasAcKey : Bool) (lat2 lon2 : Option ℚ) (rest : List AcEntry),
      consultar_adsb_lol (AdsbResponse.body total hasAcKey (⟨lat2, lon2, some 0⟩ :: rest)) =
        if total > 0 ∧ hasAcKey then some ⟨lat2, lon2, none⟩ else none) ∧
    (∀ (total : ℤ) (lat2 lon2 : Option ℚ) (rest : List AcEntry),
      (live_fetch (PrimaryResult.state lat lon vel)
          (AdsbResponse.body total true (⟨lat2, lon2, some 0⟩ :: rest))).1 = none) := by
  have hpv : primary_valid (PrimaryResult.state lat lon vel) = none := by
    rcases h with h | h | h | h | h | h <;> subst h <;> simp [primary_valid, truthy]
  refine ⟨hpv, fun s => live_fetch_snd_eq_one _ s hpv, ?_, ?_⟩
  · intro total hasAcKey lat2 lon2 rest
    simp [consultar_adsb_lol, truthy]
  · intro total lat2 lon2 rest
    by_cases ht : (0 : ℤ) < total
    · have hc : consultar_adsb_lol
          (AdsbResponse.body total true (⟨lat2, lon2, some 0⟩ :: rest)) =
          some ⟨lat2, lon2, none⟩ := by
        simp [consultar_adsb_lol, truthy, ht]
      simp [live_fetch, hpv, hc, truthy]
    · have hc : consultar_adsb_lol
          (AdsbResponse.body total true (⟨lat2, lon2, some 0⟩ :: rest)) = none := by
        simp [consultar_adsb_lol, ht]
      simp [live_fetch, hpv, hc]

/-- Witness for C8: a primary state at latitude 10, longitude 20 with reported
velocity `0`. -/
theorem falsy_treated_as_missing_witness :
    ((some (10 : ℚ)) = none ∨ (some (10 : ℚ)) = some 0 ∨
      (some (20 : ℚ)) = none ∨ (some (20 : ℚ)) = some 0 ∨
      (some (0 : ℚ)) = none ∨ (some (0 : ℚ)) = some 0) ∧
    (primary_valid (PrimaryResult.state (some 10) (some 20) (some 0)) = none ∧
      (∀ s, (live_fetch (PrimaryResult.state (some 10) (some 20) (some 0)) s).2 = 1) ∧
      (∀ (total : ℤ) (hasAcKey : Bool) (lat2 lon2 : Option ℚ) (rest : List AcEntry),
        consultar_adsb_lol
            (AdsbResponse.body total hasAcKey (⟨lat2, lon2, some 0⟩ :: rest)) =
          if total > 0 ∧ hasAcKey then some ⟨lat2, lon2, none⟩ else none) ∧
      (∀ (total : ℤ) (lat2 lon2 : Option ℚ) (rest : List AcEntry),
        (live_fetch (PrimaryResult.state (some 10) (some 20) (some 0))
            (AdsbResponse.body total true (⟨lat2, lon2, some 0⟩ :: rest))).1 = none)) :=
  ⟨Or.inr (Or.inr (Or.inr (Or.inr (Or.inr rfl)))),
    falsy_treated_as_missing (some 10) (some 20) (some 0)
      (Or.inr (Or.inr (Or.inr (Or.inr (Or.inr rfl)))))⟩

/-- C10: `calcular_distancia` is symmetric in its two coordinate pairs. -/
theorem calcular_distancia_symm (lat1 lon1 lat2 lon2 : ℝ) :
    calcular_distancia lat1 lon1 lat2 lon2 = calcular_distancia lat2 lon2 lat1 lon1 := by
  simp only [calcular_distancia]
  have hs : ∀ u v : ℝ,
      Real.sin (radians (u - v) / 2) ^ 2 = Real.sin (radians (v - u) / 2) ^ 2 := by
    intro u v
    have hneg : radians (u - v) / 2 = -(radians (v - u) / 2) := by
      simp only [radians]; ring
    rw [hneg, Real.sin_neg, neg_sq]
  rw [hs lat2 lat1, hs lon2 lon1,
    mul_comm (Real.cos (radians lat1)) (Real.cos (radians lat2))]

end FlightTracker
